import Mathlib

/-!
Shallow embedding of the Canvas / CanvasBackend core of vispy/app/canvas.py
and theorems settling the frozen claims about its geometry reconciliation,
title caching, realization protocol, backend contract defaults and event
payload construction.

Modelling conventions:
* A Python int is a Lean Int; a Python value that may be None is an Option.
* A Python exception is an explicit PyError value returned through Except.
  The facade methods whose only observable effect is calling into the
  backend return the list of backend calls they issued, in order, as a
  trace; an Except.error result means the exception was raised before any
  further backend call could be issued.
* The backend instance owned by a realized Canvas is modelled by the
  geometry it currently reports, the only backend state the claims
  observe; an unrealized Canvas has backend = none, and a method access on
  that absent backend yields the AttributeError that CPython raises when
  an attribute of None is read (message rendered here without the CPython
  quote characters).
-/

namespace VispyCanvas

/-- Python exceptions that the modelled code can raise. -/
inductive PyError where
  | attributeError (attr : String)
  | valueError (msg : String)
  | indexError
  | notImplementedError

/-- The message CPython attaches to each modelled exception: accessing an
attribute on None yields the NoneType attribute message naming the
attribute, ValueError carries the message given at the raise site,
IndexError comes from tuple indexing, and NotImplementedError is raised
with no arguments in canvas.py. -/
def PyError.message : PyError → String
  | PyError.attributeError a => "NoneType object has no attribute " ++ a
  | PyError.valueError m => m
  | PyError.indexError => "tuple index out of range"
  | PyError.notImplementedError => ""

/-- One call made by the Canvas facade on its backend instance; the
constructors carry exactly the arguments the Python code forwards. -/
inductive BackendCall where
  | getGeometry
  | setLocation (x y : Option Int)
  | setSize (w h : Option Int)
  | setTitle (t : String)
  | setVisible (v : Bool)
  | update
  | close

/-- A window geometry (x, y, w, h) as reported by a concrete backend via
getGeometry; a real backend reports plain integers, never None. -/
structure Geometry where
  x : Int
  y : Int
  w : Int
  h : Int

/-- State of a Canvas: the local title cache (self dot title attribute,
initially the empty string), the lazily created backend instance (None
while unrealized), and the cached construction arguments (self args and
kwargs, modelled together as one optional list, deleted at realization). -/
structure Canvas where
  title : String
  backend : Option Geometry
  ctorArgs : Option (List Int)

/-- Canvas constructor body without the optional eager create_widget call:
title cache empty, backend absent, construction arguments retained. -/
def Canvas.fresh (as : List Int) : Canvas :=
  { title := "", backend := none, ctorArgs := some as }

/-- Canvas.create_widget: if the backend already exists this does nothing;
otherwise it instantiates the one backend (the toolkit determines the
geometry g it will report) and deletes the cached construction arguments.
The returned Nat counts how many backend instantiations were performed. -/
def create_widget (c : Canvas) (g : Geometry) : Canvas × Nat :=
  match c.backend with
  | some _ => (c, 0)
  | none => ({ c with backend := some g, ctorArgs := none }, 1)

/-- Repeated calls to create_widget, one geometry argument per call; the
total instantiation count is accumulated. -/
def createWidgetSeq (c : Canvas) : List Geometry → Canvas × Nat
  | [] => (c, 0)
  | g :: gs =>
      let step := create_widget c g
      let rest := createWidgetSeq step.1 gs
      (rest.1, step.2 + rest.2)

/-- Canvas.__init__ given the construction arguments, the geometry the
toolkit would report on realization, and the create_widget keyword. -/
def Canvas.init (as : List Int) (g : Geometry) (createWidget : Bool) : Canvas × Nat :=
  if createWidget then create_widget (Canvas.fresh as) g else (Canvas.fresh as, 0)

/-- Canvas.native property: delegates to the backend method
_vispy_get_native_canvas, whose default implementation returns the backend
itself; on an unrealized Canvas the attribute access on None raises. -/
def Canvas.native (c : Canvas) : Except PyError Geometry :=
  match c.backend with
  | none => Except.error (PyError.attributeError "_vispy_get_native_canvas")
  | some g => Except.ok g

/-- Canvas.geometry getter: delegates to _vispy_get_geometry. -/
def Canvas.geometry (c : Canvas) : Except PyError Geometry :=
  match c.backend with
  | none => Except.error (PyError.attributeError "_vispy_get_geometry")
  | some g => Except.ok g

/-- Canvas.geometry setter. A 2-element argument is forwarded to
_vispy_set_location unconditionally; a 4-element argument first fetches
the current geometry, then issues _vispy_set_location only when the
requested position differs from the current one and contains no None, and
_vispy_set_size only when the requested size differs from the current one
and contains no None; any other length raises ValueError before touching
the backend. Comparisons mirror Python tuple equality on values that may
be None. -/
def Canvas.geometrySet (c : Canvas) (args : List (Option Int)) :
    Except PyError (List BackendCall) :=
  match args with
  | [a, b] =>
      match c.backend with
      | none => Except.error (PyError.attributeError "_vispy_set_location")
      | some _ => Except.ok [BackendCall.setLocation a b]
  | [a, b, w, h] =>
      match c.backend with
      | none => Except.error (PyError.attributeError "_vispy_get_geometry")
      | some cur =>
          let locCalls :=
            if [a, b] ≠ [some cur.x, some cur.y] ∧ none ∉ [a, b] then
              [BackendCall.setLocation a b]
            else []
          let sizeCalls :=
            if [w, h] ≠ [some cur.w, some cur.h] ∧ none ∉ [w, h] then
              [BackendCall.setSize w h]
            else []
          Except.ok (BackendCall.getGeometry :: (locCalls ++ sizeCalls))
  | _ => Except.error (PyError.valueError "Setting geometry requires 2 or 4 values.")

/-- Canvas.title getter: returns the local cache. -/
def Canvas.titleGet (c : Canvas) : String :=
  c.title

/-- Canvas.title setter: updates the local cache first, then pushes the
value to the backend unconditionally; on an unrealized Canvas the push
raises, but the cache has already been updated. -/
def Canvas.titleSet (c : Canvas) (t : String) : Canvas × Except PyError (List BackendCall) :=
  ({ c with title := t },
   match c.backend with
   | some _ => Except.ok [BackendCall.setTitle t]
   | none => Except.error (PyError.attributeError "_vispy_set_title"))

/-- A sequence of title assignments, threading the facade state. -/
def setTitles (c : Canvas) (ts : List String) : Canvas :=
  ts.foldl (fun acc t => (Canvas.titleSet acc t).1) c

/-- Canvas.show: forwards the visibility flag to _vispy_set_visible. -/
def Canvas.show' (c : Canvas) (visible : Bool) : Except PyError (List BackendCall) :=
  match c.backend with
  | none => Except.error (PyError.attributeError "_vispy_set_visible")
  | some _ => Except.ok [BackendCall.setVisible visible]

/-- Canvas.update: forwards to _vispy_update. -/
def Canvas.update (c : Canvas) : Except PyError (List BackendCall) :=
  match c.backend with
  | none => Except.error (PyError.attributeError "_vispy_update")
  | some _ => Except.ok [BackendCall.update]

/-- Canvas.close: forwards to _vispy_close. -/
def Canvas.close (c : Canvas) : Except PyError (List BackendCall) :=
  match c.backend with
  | none => Except.error (PyError.attributeError "_vispy_close")
  | some _ => Except.ok [BackendCall.close]

/-- Whether a backend call is the geometry query. -/
def isGet : BackendCall → Bool
  | BackendCall.getGeometry => true
  | _ => false

/-- Whether a backend call is a set_location call. -/
def isLoc : BackendCall → Bool
  | BackendCall.setLocation _ _ => true
  | _ => false

/-- Whether a backend call is a set_size call. -/
def isSize : BackendCall → Bool
  | BackendCall.setSize _ _ => true
  | _ => false

/-- Number of get_geometry calls in a trace. -/
def nGets (tr : List BackendCall) : Nat :=
  (tr.filter isGet).length

/-- Number of set_location calls in a trace. -/
def nLocs (tr : List BackendCall) : Nat :=
  (tr.filter isLoc).length

/-- Number of set_size calls in a trace. -/
def nSizes (tr : List BackendCall) : Nat :=
  (tr.filter isSize).length

/-- Abstract CanvasBackend: its only attribute is the back-reference to
the owning Canvas, set once at construction. -/
structure CanvasBackendObj where
  vispy_canvas : Canvas

/-- CanvasBackend._vispy_set_current default: raise NotImplementedError. -/
def CanvasBackendObj.vispy_set_current (_b : CanvasBackendObj) : Except PyError Unit :=
  Except.error PyError.notImplementedError

/-- CanvasBackend._vispy_swap_buffers default: raise NotImplementedError. -/
def CanvasBackendObj.vispy_swap_buffers (_b : CanvasBackendObj) : Except PyError Unit :=
  Except.error PyError.notImplementedError

/-- CanvasBackend._vispy_set_title default: raise NotImplementedError. -/
def CanvasBackendObj.vispy_set_title (_b : CanvasBackendObj) (_t : String) : Except PyError Unit :=
  Except.error PyError.notImplementedError

/-- CanvasBackend._vispy_set_size default: raise NotImplementedError. -/
def CanvasBackendObj.vispy_set_size (_b : CanvasBackendObj) (_w _h : Int) : Except PyError Unit :=
  Except.error PyError.notImplementedError

/-- CanvasBackend._vispy_set_location default: raise NotImplementedError. -/
def CanvasBackendObj.vispy_set_location (_b : CanvasBackendObj) (_x _y : Int) : Except PyError Unit :=
  Except.error PyError.notImplementedError

/-- CanvasBackend._vispy_set_visible default: raise NotImplementedError. -/
def CanvasBackendObj.vispy_set_visible (_b : CanvasBackendObj) (_v : Bool) : Except PyError Unit :=
  Except.error PyError.notImplementedError

/-- CanvasBackend._vispy_update default: raise NotImplementedError. -/
def CanvasBackendObj.vispy_update (_b : CanvasBackendObj) : Except PyError Unit :=
  Except.error PyError.notImplementedError

/-- CanvasBackend._vispy_close default: raise NotImplementedError. -/
def CanvasBackendObj.vispy_close (_b : CanvasBackendObj) : Except PyError Unit :=
  Except.error PyError.notImplementedError

/-- CanvasBackend._vispy_get_geometry default: raise NotImplementedError. -/
def CanvasBackendObj.vispy_get_geometry (_b : CanvasBackendObj) : Except PyError Geometry :=
  Except.error PyError.notImplementedError

/-- CanvasBackend._vispy_get_native_canvas default: return the backend
instance itself, without raising. -/
def CanvasBackendObj.vispy_get_native_canvas (b : CanvasBackendObj) : CanvasBackendObj :=
  b

/-- Mouse event payload; int coercion of an already integer-valued button
or delta is the identity, so those fields keep their given values. -/
structure MouseEvent where
  type : String
  pos : Int × Int
  button : Option Int
  modifiers : List Int
  delta : Int

/-- The declared default of the delta argument of MouseEvent.__init__. -/
def MouseEvent.deltaDefault : Int := 0

/-- MouseEvent.__init__: pos None defaults the position to (0, 0), and any
other pos is read at indices 0 and 1 only (raising IndexError when too
short, silently ignoring elements past the second); button None stays
absent; modifiers None (or an empty sequence) becomes the empty tuple;
delta is stored as an int. -/
def MouseEvent.init (type : String) (pos : Option (List Int)) (button : Option Int)
    (modifiers : Option (List Int)) (delta : Int) : Except PyError MouseEvent :=
  match pos with
  | none => Except.ok ⟨type, (0, 0), button, modifiers.getD [], delta⟩
  | some p =>
      match p.get? 0, p.get? 1 with
      | some px, some py => Except.ok ⟨type, (px, py), button, modifiers.getD [], delta⟩
      | _, _ => Except.error PyError.indexError

/-- Resize event payload. -/
structure ResizeEvent where
  type : String
  size : List Int

/-- ResizeEvent.__init__: the size argument is converted by tuple(size),
which preserves every element and performs no arity check. -/
def ResizeEvent.init (type : String) (size : List Int) : ResizeEvent :=
  ⟨type, size⟩

/-- Whether the pattern occurs as a contiguous substring of s. -/
def listHasSub (l p : List Char) : Bool :=
  l.tails.any (fun t => p.isPrefixOf t)

/-- String form of the substring test, used to ask whether an exception
message mentions a given phrase. -/
def strHasSub (s pat : String) : Bool :=
  listHasSub s.toList pat.toList

/-- Unfolding of the geometry setter on a realized Canvas and a 4-element
argument: one getGeometry fetch followed by the conditional move and the
conditional resize. -/
theorem geometrySet_four (t0 : String) (as : Option (List Int)) (g : Geometry)
    (a b w h : Option Int) :
    (Canvas.mk t0 (some g) as).geometrySet [a, b, w, h] =
      Except.ok (BackendCall.getGeometry ::
        ((if [a, b] ≠ [some g.x, some g.y] ∧ none ∉ [a, b]
          then [BackendCall.setLocation a b] else []) ++
         (if [w, h] ≠ [some g.w, some g.h] ∧ none ∉ [w, h]
          then [BackendCall.setSize w h] else []))) := rfl

/-- Once the Canvas is realized, any further create_widget calls leave the
state untouched and perform no instantiation. -/
theorem createWidgetSeq_realized (t : String) (g : Geometry) (as : Option (List Int))
    (gs : List Geometry) :
    createWidgetSeq (Canvas.mk t (some g) as) gs = (Canvas.mk t (some g) as, 0) := by
  induction gs with
  | nil => rfl
  | cons g2 gs2 ih => simp [createWidgetSeq, create_widget, ih]

/-- Claim C1: on a realized Canvas, the 4-element geometry setter first
fetches the current geometry from the backend exactly once, then issues a
set_location call with the requested (x, y) if and only if the requested
position differs from the current position and none of the two requested
coordinates is None, and issues a set_size call with the requested (w, h)
if and only if the requested size differs from the current size and none
of the two requested dimensions is None; the counts show that an
unchanged position with a changed size yields exactly one resize call and
zero move calls, and symmetrically. -/
theorem geometry_four_tuple_reconciliation (t0 : String) (as : Option (List Int))
    (g : Geometry) (a b w h : Option Int) :
    ∃ tr : List BackendCall,
      (Canvas.mk t0 (some g) as).geometrySet [a, b, w, h] = Except.ok tr ∧
      tr.head? = some BackendCall.getGeometry ∧
      nGets tr = 1 ∧
      nLocs tr = (if [a, b] ≠ [some g.x, some g.y] ∧ none ∉ [a, b] then 1 else 0) ∧
      (BackendCall.setLocation a b ∈ tr ↔
        ([a, b] ≠ [some g.x, some g.y] ∧ none ∉ [a, b])) ∧
      nSizes tr = (if [w, h] ≠ [some g.w, some g.h] ∧ none ∉ [w, h] then 1 else 0) ∧
      (BackendCall.setSize w h ∈ tr ↔
        ([w, h] ≠ [some g.w, some g.h] ∧ none ∉ [w, h])) := by
  by_cases hP : [a, b] ≠ [some g.x, some g.y] ∧ none ∉ [a, b] <;>
    by_cases hQ : [w, h] ≠ [some g.w, some g.h] ∧ none ∉ [w, h]
  · refine ⟨[BackendCall.getGeometry, BackendCall.setLocation a b, BackendCall.setSize w h],
      ?_, rfl, rfl, ?_, ?_, ?_, ?_⟩
    · rw [geometrySet_four, if_pos hP, if_pos hQ]; rfl
    · rw [if_pos hP]; rfl
    · exact iff_of_true (by simp) hP
    · rw [if_pos hQ]; rfl
    · exact iff_of_true (by simp) hQ
  · refine ⟨[BackendCall.getGeometry, BackendCall.setLocation a b],
      ?_, rfl, rfl, ?_, ?_, ?_, ?_⟩
    · rw [geometrySet_four, if_pos hP, if_neg hQ]; rfl
    · rw [if_pos hP]; rfl
    · exact iff_of_true (by simp) hP
    · rw [if_neg hQ]; rfl
    · exact iff_of_false (by simp) hQ
  · refine ⟨[BackendCall.getGeometry, BackendCall.setSize w h],
      ?_, rfl, rfl, ?_, ?_, ?_, ?_⟩
    · rw [geometrySet_four, if_neg hP, if_pos hQ]; rfl
    · rw [if_neg hP]; rfl
    · exact iff_of_false (by simp) hP
    · rw [if_pos hQ]; rfl
    · exact iff_of_true (by simp) hQ
  · refine ⟨[BackendCall.getGeometry],
      ?_, rfl, rfl, ?_, ?_, ?_, ?_⟩
    · rw [geometrySet_four, if_neg hP, if_neg hQ]; rfl
    · rw [if_neg hP]; rfl
    · exact iff_of_false (by simp) hP
    · rw [if_neg hQ]; rfl
    · exact iff_of_false (by simp) hQ

/-- Claim C2 counterexample: setting the geometry of a realized Canvas to
the exact tuple the backend currently reports issues one backend call,
the get_geometry fetch, not zero backend calls as claimed. -/
theorem geometry_noop_issues_fetch_call :
    (Canvas.mk "" (some (Geometry.mk 10 20 300 200)) none).geometrySet
        [some 10, some 20, some 300, some 200] =
      Except.ok [BackendCall.getGeometry] ∧
    [BackendCall.getGeometry].length = 1 := ⟨rfl, rfl⟩

/-- Claim C2 as amended: for every 4-element tuple equal to the geometry
currently reported by the backend, the setter issues exactly one
get_geometry fetch and zero mutating backend calls (no set_location and
no set_size). -/
theorem geometry_noop_zero_mutating_calls (t0 : String) (as : Option (List Int))
    (g : Geometry) :
    (Canvas.mk t0 (some g) as).geometrySet [some g.x, some g.y, some g.w, some g.h] =
      Except.ok [BackendCall.getGeometry] ∧
    nLocs [BackendCall.getGeometry] = 0 ∧
    nSizes [BackendCall.getGeometry] = 0 := by
  refine ⟨?_, rfl, rfl⟩
  rw [geometrySet_four]
  rw [if_neg (fun hc => hc.1 rfl), if_neg (fun hc => hc.1 rfl)]
  rfl

/-- Claim C3 counterexample: a 3-element argument makes the setter raise
ValueError with message "Setting geometry requires 2 or 4 values.", which
is not the claimed message "geometry requires exactly 2 or 4 values". -/
theorem geometry_arity_error_message_value :
    (Canvas.mk "" (some (Geometry.mk 0 0 0 0)) none).geometrySet
        [some 1, some 2, some 3] =
      Except.error (PyError.valueError "Setting geometry requires 2 or 4 values.") ∧
    "Setting geometry requires 2 or 4 values." ≠ "geometry requires exactly 2 or 4 values" :=
  ⟨rfl, by decide⟩

/-- Claim C3 as amended: for every argument whose length is neither 2 nor
4 (lengths 0, 1, 3 and at least 5 exhaust these), on any Canvas, realized
or not, the setter raises ValueError with the message "Setting geometry
requires 2 or 4 values." and issues zero backend calls, leaving all state
unchanged: the error is raised before the backend is ever touched, and an
error result carries no call trace. -/
theorem geometry_bad_arity_valueerror (t0 : String) (bk : Option Geometry)
    (as : Option (List Int)) (a b u v e : Option Int) (rest : List (Option Int)) :
    (Canvas.mk t0 bk as).geometrySet [] =
      Except.error (PyError.valueError "Setting geometry requires 2 or 4 values.") ∧
    (Canvas.mk t0 bk as).geometrySet [a] =
      Except.error (PyError.valueError "Setting geometry requires 2 or 4 values.") ∧
    (Canvas.mk t0 bk as).geometrySet [a, b, u] =
      Except.error (PyError.valueError "Setting geometry requires 2 or 4 values.") ∧
    (Canvas.mk t0 bk as).geometrySet (a :: b :: u :: v :: e :: rest) =
      Except.error (PyError.valueError "Setting geometry requires 2 or 4 values.") :=
  ⟨rfl, rfl, rfl, rfl⟩

/-- Claim C4 counterexample: payload construction silently accepts
wrong-arity arguments instead of failing: a 3-element pos given to the
MouseEvent constructor succeeds and is truncated to its first two
elements, and a 3-element size given to the ResizeEvent constructor
succeeds and is stored unchanged. -/
theorem payload_wrong_arity_accepted :
    MouseEvent.init "mouse_press" (some [1, 2, 3]) none none 0 =
      Except.ok (MouseEvent.mk "mouse_press" (1, 2) none [] 0) ∧
    ResizeEvent.init "resize" [1, 2, 3] = ResizeEvent.mk "resize" [1, 2, 3] :=
  ⟨rfl, rfl⟩

/-- Claim C4 as amended: the MouseEvent constructor fails (with the
IndexError from tuple indexing, before any emission) only when the given
pos has fewer than 2 elements; a pos with 2 or more elements is silently
truncated to its first two; the ResizeEvent constructor accepts a size of
any arity and stores it unchanged. -/
theorem payload_arity_behavior (t : String) (x y : Int) (rest : List Int)
    (b : Option Int) (m : Option (List Int)) (d : Int) (s : List Int) :
    MouseEvent.init t (some (x :: y :: rest)) b m d =
      Except.ok (MouseEvent.mk t (x, y) b (m.getD []) d) ∧
    MouseEvent.init t (some [x]) b m d = Except.error PyError.indexError ∧
    MouseEvent.init t (some []) b m d = Except.error PyError.indexError ∧
    (ResizeEvent.init t s).size = s :=
  ⟨rfl, rfl, rfl, rfl⟩

/-- Claim C5: after any sequence of title assignments, on a realized or an
unrealized Canvas alike, reading the title returns the value most
recently passed to the setter; each assignment on a realized Canvas
pushes exactly one set_title call to the backend unconditionally, also
when the assigned value equals the cached one; and on an unrealized
Canvas the cache is still updated first even though the backend push then
fails. -/
theorem title_cache_and_unconditional_push (t0 : String) (bk : Option Geometry)
    (as : Option (List Int)) (g : Geometry) (ts : List String) (t : String) :
    (setTitles (Canvas.mk t0 bk as) (ts ++ [t])).titleGet = t ∧
    ((Canvas.mk t0 bk as).titleSet t).1.titleGet = t ∧
    ((Canvas.mk t0 (some g) as).titleSet t).2 = Except.ok [BackendCall.setTitle t] ∧
    ((Canvas.mk t (some g) as).titleSet t).2 = Except.ok [BackendCall.setTitle t] ∧
    ((Canvas.mk t0 none as).titleSet t).1.titleGet = t ∧
    ((Canvas.mk t0 none as).titleSet t).2 =
      Except.error (PyError.attributeError "_vispy_set_title") := by
  refine ⟨?_, rfl, rfl, rfl, rfl, rfl⟩
  simp [setTitles, List.foldl_append, Canvas.titleSet, Canvas.titleGet]

/-- Claim C6: starting from a Canvas constructed with create_widget set to
False, any positive number of create_widget calls instantiates the
backend exactly once, the instance kept is the one from the first call,
and the cached construction arguments are released by that first call; a
further create_widget call on an already realized Canvas is a no-op that
performs zero instantiations. -/
theorem create_widget_idempotent_releases_args (as : List Int) (as2 : Option (List Int))
    (t0 : String) (g0 g g2 : Geometry) (gs : List Geometry) :
    createWidgetSeq (Canvas.init as g0 false).1 (g :: gs) =
      (Canvas.mk "" (some g) none, 1) ∧
    create_widget (Canvas.mk t0 (some g) as2) g2 = (Canvas.mk t0 (some g) as2, 0) := by
  refine ⟨?_, rfl⟩
  simp [Canvas.init, Canvas.fresh, createWidgetSeq, create_widget, createWidgetSeq_realized]

/-- Claim C7: a MouseEvent constructed with pos None has position (0, 0);
with button None its button is absent, and a given integer button is
stored as that integer; with modifiers None its modifier tuple is empty;
and with delta left at its declared default the stored scroll delta is
the integer 0. -/
theorem mouse_event_defaults (t : String) (b : Int) :
    MouseEvent.init t none none none MouseEvent.deltaDefault =
      Except.ok (MouseEvent.mk t (0, 0) none [] 0) ∧
    MouseEvent.init t none (some b) none MouseEvent.deltaDefault =
      Except.ok (MouseEvent.mk t (0, 0) (some b) [] 0) ∧
    MouseEvent.deltaDefault = 0 :=
  ⟨rfl, rfl, rfl⟩

/-- Claim C8 counterexample: reading native on an unrealized Canvas fails
with the AttributeError raised by accessing the method on the absent
(None) backend, and that error message does not mention the phrase
"not yet realized" anywhere. -/
theorem unrealized_error_lacks_realization_message :
    (Canvas.mk "" none none).native =
      Except.error (PyError.attributeError "_vispy_get_native_canvas") ∧
    strHasSub (PyError.message (PyError.attributeError "_vispy_get_native_canvas"))
      "not yet realized" = false :=
  ⟨rfl, rfl⟩

/-- Claim C8 as amended: every delegated operation on an unrealized Canvas
fails synchronously with the AttributeError arising from the method
access on the absent (None) backend, naming the delegated backend method,
rather than succeeding; the error does not reference a not-yet-realized
condition. -/
theorem unrealized_ops_attribute_error (t0 : String) (as : Option (List Int))
    (a b w h : Option Int) (t : String) (v : Bool) :
    (Canvas.mk t0 none as).native =
      Except.error (PyError.attributeError "_vispy_get_native_canvas") ∧
    (Canvas.mk t0 none as).geometry =
      Except.error (PyError.attributeError "_vispy_get_geometry") ∧
    (Canvas.mk t0 none as).geometrySet [a, b] =
      Except.error (PyError.attributeError "_vispy_set_location") ∧
    (Canvas.mk t0 none as).geometrySet [a, b, w, h] =
      Except.error (PyError.attributeError "_vispy_get_geometry") ∧
    ((Canvas.mk t0 none as).titleSet t).2 =
      Except.error (PyError.attributeError "_vispy_set_title") ∧
    (Canvas.mk t0 none as).show' v =
      Except.error (PyError.attributeError "_vispy_set_visible") ∧
    (Canvas.mk t0 none as).update =
      Except.error (PyError.attributeError "_vispy_update") ∧
    (Canvas.mk t0 none as).close =
      Except.error (PyError.attributeError "_vispy_close") :=
  ⟨rfl, rfl, rfl, rfl, rfl, rfl, rfl, rfl⟩

/-- Claim C9: every operation of the abstract CanvasBackend raises
NotImplementedError by default, never silently no-opping, with the sole
exception of the get-native-canvas operation, which returns the backend
instance itself. -/
theorem backend_defaults_not_implemented (bk : CanvasBackendObj) (t : String)
    (w h x y : Int) (v : Bool) :
    bk.vispy_set_current = Except.error PyError.notImplementedError ∧
    bk.vispy_swap_buffers = Except.error PyError.notImplementedError ∧
    bk.vispy_set_title t = Except.error PyError.notImplementedError ∧
    bk.vispy_set_size w h = Except.error PyError.notImplementedError ∧
    bk.vispy_set_location x y = Except.error PyError.notImplementedError ∧
    bk.vispy_set_visible v = Except.error PyError.notImplementedError ∧
    bk.vispy_update = Except.error PyError.notImplementedError ∧
    bk.vispy_close = Except.error PyError.notImplementedError ∧
    bk.vispy_get_geometry = Except.error PyError.notImplementedError ∧
    bk.vispy_get_native_canvas = bk :=
  ⟨rfl, rfl, rfl, rfl, rfl, rfl, rfl, rfl, rfl, rfl⟩

/-- Claim C10: on a realized Canvas, a 2-element geometry argument, even
one whose elements are None, is forwarded unchanged as exactly one
set_location call, with no get_geometry consultation and no resize. -/
theorem geometry_two_tuple_forwards (t0 : String) (as : Option (List Int))
    (g : Geometry) (a b : Option Int) :
    (Canvas.mk t0 (some g) as).geometrySet [a, b] =
      Except.ok [BackendCall.setLocation a b] ∧
    nGets [BackendCall.setLocation a b] = 0 ∧
    nLocs [BackendCall.setLocation a b] = 1 ∧
    nSizes [BackendCall.setLocation a b] = 0 :=
  ⟨rfl, rfl, rfl, rfl⟩

end VispyCanvas
